import Mathlib

/-!
Verification of the traefik headers middleware (src/middlewares/headers.go).

The Go code is shallowly embedded: header sets (net/http Header values)
become functions from header names to lists of values; in-place mutation
becomes explicit state passing; the Go error channel becomes Option/Except
results. Definitions follow the source function by function.
-/

namespace Headers

/-- A header set, as in net/http: a map from header name to the list of
values. `hGet` returns the first value or the empty string, `hSet`
overwrites with a single value, `hDel` removes all values, `hAdd` appends
a value, mirroring Go Header.Get / Set / Del / Add. -/
def HeaderMap : Type := String → List String

/-- Go Header.Get: first value, or the empty string when absent. -/
def hGet (h : HeaderMap) (k : String) : String := (h k).headD ""

/-- Go Header.Set: replace all existing values of the key with one value. -/
def hSet (h : HeaderMap) (k v : String) : HeaderMap :=
  fun k2 => if k2 = k then [v] else h k2

/-- Go Header.Del: remove the key. -/
def hDel (h : HeaderMap) (k : String) : HeaderMap :=
  fun k2 => if k2 = k then [] else h k2

/-- Go Header.Add: append a value for the key. -/
def hAdd (h : HeaderMap) (k v : String) : HeaderMap :=
  fun k2 => if k2 = k then h k2 ++ [v] else h k2

/-- The header set with no entries. -/
def hEmpty : HeaderMap := fun _ => []

/-- HeaderOptions from the source: configuration for the middleware.
Custom header mappings are association lists standing for Go maps
(Go map iteration order is unspecified; theorems below establish order
independence given the distinct keys a Go map guarantees). -/
structure HeaderOptions where
  customRequestHeaders : List (String × String)
  customResponseHeaders : List (String × String)
  accessControlAllowCredentials : Bool
  accessControlAllowHeaders : List String
  accessControlAllowMethods : List String
  accessControlAllowOrigin : String
  accessControlExposeHeaders : List String
  accessControlMaxAge : Int
deriving DecidableEq

/-- HeaderStruct from the source: the middleware instance. `originHeader`
is a mutable field on the instance, written by every invocation of
ServeHTTP (the source stores the captured Origin header here). -/
structure HeaderStruct where
  opt : HeaderOptions
  originHeader : String
deriving DecidableEq

/-- An incoming request: its header set and its method string. -/
structure Request where
  header : HeaderMap
  method : String

/-- getAllowOrigin from the source: switch on the configured
AccessControlAllowOrigin; "origin-list-or-null" reflects the captured
origin (or the literal "null" when it is empty), "*" returns "*", and
every other value is an error carrying the offending value. -/
def getAllowOrigin (s : HeaderStruct) : Except String String :=
  if s.opt.accessControlAllowOrigin = "origin-list-or-null" then
    if s.originHeader = "" then Except.ok "null"
    else Except.ok s.originHeader
  else if s.opt.accessControlAllowOrigin = "*" then
    Except.ok "*"
  else
    Except.error ("invalid Access-Control-Allow-Origin setting: "
      ++ s.opt.accessControlAllowOrigin)

/-- One step of the custom-header loops in ModifyRequestHeaders and
ModifyResponseHeaders: an empty value deletes the header, a non-empty
value sets it. -/
def applyOne (h : HeaderMap) (p : String × String) : HeaderMap :=
  if p.2 = "" then hDel h p.1 else hSet h p.1 p.2

/-- The custom-header mutation loop: fold `applyOne` over the mapping. -/
def applyHeaders (h : HeaderMap) (m : List (String × String)) : HeaderMap :=
  m.foldl applyOne h

/-- ModifyRequestHeaders from the source: apply the configured custom
request headers to the request header set. -/
def ModifyRequestHeaders (s : HeaderStruct) (r : Request) : Request :=
  { r with header := applyHeaders r.header s.opt.customRequestHeaders }

/-- strings.Join with separator ",". -/
def joinComma (l : List String) : String := String.intercalate "," l

/-- Response-modification step: if the resolved origin is non-empty, set
the Access-Control-Allow-Origin header (overwrite, not add). -/
def setAllowOriginStep (v : String) (h : HeaderMap) : HeaderMap :=
  if v ≠ "" then hSet h "Access-Control-Allow-Origin" v else h

/-- Response-modification step: if the credentials flag is set, set the
Access-Control-Allow-Credentials header. -/
def setCredentialsStep (s : HeaderStruct) (h : HeaderMap) : HeaderMap :=
  if s.opt.accessControlAllowCredentials then
    hSet h "Access-Control-Allow-Credentials" "true"
  else h

/-- Response-modification step: if the joined AccessControlExposeHeaders
is non-empty, set the Access-Control-Expose-Headers header. -/
def setExposeStep (s : HeaderStruct) (h : HeaderMap) : HeaderMap :=
  let exposeHeaders := joinComma s.opt.accessControlExposeHeaders
  if exposeHeaders ≠ "" then
    hSet h "Access-Control-Expose-Headers" exposeHeaders
  else h

/-- ModifyResponseHeaders from the source. In Go the response header set
is mutated in place and an error may be returned; here the final state of
the header set is returned together with the optional error, so that the
state left behind on the error path is observable. -/
def ModifyResponseHeaders (s : HeaderStruct) (h : HeaderMap) :
    HeaderMap × Option String :=
  let h1 := applyHeaders h s.opt.customResponseHeaders
  match getAllowOrigin s with
  | Except.error e => (h1, some e)
  | Except.ok allowOrigin =>
    (setExposeStep s (setCredentialsStep s (setAllowOriginStep allowOrigin h1)),
      none)

/-- The first statement of ServeHTTP that touches the instance: the
captured Origin header is written into the shared instance field
`s.originHeader`. -/
def captureOrigin (s : HeaderStruct) (r : Request) : HeaderStruct :=
  { s with originHeader := hGet r.header "Origin" }

/-- The observable outcome of one ServeHTTP invocation: the updated
instance (the instance field originHeader is written), the response
writer header set, the (possibly mutated) request, which branch ran,
and whether next was invoked. -/
structure ServeOutcome where
  s : HeaderStruct
  w : HeaderMap
  r : Request
  preflight : Bool
  usedNext : Bool

/-- First preflight step: if AccessControlAllowCredentials is set, add
the Access-Control-Allow-Credentials header. -/
def addCredentialsStep (s1 : HeaderStruct) (w : HeaderMap) : HeaderMap :=
  if s1.opt.accessControlAllowCredentials then
    hAdd w "Access-Control-Allow-Credentials" "true"
  else w

/-- Second preflight step: if the joined AccessControlAllowHeaders is
non-empty, add the Access-Control-Allow-Headers header. -/
def addAllowHeadersStep (s1 : HeaderStruct) (w : HeaderMap) : HeaderMap :=
  let allowHeaders := joinComma s1.opt.accessControlAllowHeaders
  if allowHeaders ≠ "" then
    hAdd w "Access-Control-Allow-Headers" allowHeaders
  else w

/-- Third preflight step: if the joined AccessControlAllowMethods is
non-empty, add the Access-Control-Allow-Methods header. -/
def addAllowMethodsStep (s1 : HeaderStruct) (w : HeaderMap) : HeaderMap :=
  let allowMethods := joinComma s1.opt.accessControlAllowMethods
  if allowMethods ≠ "" then
    hAdd w "Access-Control-Allow-Methods" allowMethods
  else w

/-- Fourth preflight step: resolve the allow origin; an error is only
logged, leaving the Go zero value "" so that no header is added;
otherwise add the Access-Control-Allow-Origin header. -/
def addAllowOriginStep (s1 : HeaderStruct) (w : HeaderMap) : HeaderMap :=
  let allowOrigin := match getAllowOrigin s1 with
    | Except.ok v => v
    | Except.error _ => ""
  if allowOrigin ≠ "" then
    hAdd w "Access-Control-Allow-Origin" allowOrigin
  else w

/-- Last preflight step: unconditionally add Access-Control-Max-Age with
the decimal rendering of AccessControlMaxAge. -/
def addMaxAgeStep (s1 : HeaderStruct) (w : HeaderMap) : HeaderMap :=
  hAdd w "Access-Control-Max-Age" (toString s1.opt.accessControlMaxAge)

/-- The preflight branch body of ServeHTTP: the five header-adding
statements of the source, in source order. -/
def preflightResponse (s1 : HeaderStruct) (w : HeaderMap) : HeaderMap :=
  addMaxAgeStep s1 (addAllowOriginStep s1 (addAllowMethodsStep s1
    (addAllowHeadersStep s1 (addCredentialsStep s1 w))))

/-- ServeHTTP from the source. `next` is the optional continuation; when
invoked it may write response headers, so it is a function on the writer
header set (it also sees the mutated request). -/
def ServeHTTP (s : HeaderStruct) (w : HeaderMap) (r : Request)
    (next : Option (HeaderMap → Request → HeaderMap)) : ServeOutcome :=
  let reqAcMethod := hGet r.header "Access-Control-Request-Method"
  let reqAcHeaders := hGet r.header "Access-Control-Request-Headers"
  let s1 := captureOrigin s r
  if reqAcMethod ≠ "" ∧ reqAcHeaders ≠ "" ∧ s1.originHeader ≠ ""
      ∧ r.method = "OPTIONS" then
    { s := s1, w := preflightResponse s1 w, r := r,
      preflight := true, usedNext := false }
  else
    let r1 := ModifyRequestHeaders s1 r
    match next with
    | some f =>
        { s := s1, w := f w r1, r := r1, preflight := false, usedNext := true }
    | none =>
        { s := s1, w := w, r := r1, preflight := false, usedNext := false }

/-- types.Headers, the construction input. The type lives outside this
repository; its fields are those copied by NewHeaderFromStruct. -/
structure TypesHeaders where
  customRequestHeaders : List (String × String)
  customResponseHeaders : List (String × String)
  accessControlAllowCredentials : Bool
  accessControlAllowHeaders : List String
  accessControlAllowMethods : List String
  accessControlAllowOrigin : String
  accessControlExposeHeaders : List String
  accessControlMaxAge : Int
deriving DecidableEq

/-- Modelled from the spec: types.Headers.HasCustomHeadersDefined is not
under src; per the spec, custom headers are configured when either custom
header mapping is non-empty. -/
def hasCustomHeadersDefined (h : TypesHeaders) : Bool :=
  ¬h.customRequestHeaders.isEmpty || ¬h.customResponseHeaders.isEmpty

/-- Modelled from the spec: types.Headers.HasCorsHeadersDefined is not
under src; per the spec, CORS headers are configured when any CORS field
is set to a non-zero value. -/
def hasCorsHeadersDefined (h : TypesHeaders) : Bool :=
  h.accessControlAllowCredentials
    || ¬h.accessControlAllowHeaders.isEmpty
    || ¬h.accessControlAllowMethods.isEmpty
    || h.accessControlAllowOrigin ≠ ""
    || ¬h.accessControlExposeHeaders.isEmpty
    || h.accessControlMaxAge ≠ 0

/-- The field-by-field copy of the construction input into the
HeaderOptions held by the instance. -/
def optionsOfTypesHeaders (h : TypesHeaders) : HeaderOptions :=
  { customRequestHeaders := h.customRequestHeaders
    customResponseHeaders := h.customResponseHeaders
    accessControlAllowCredentials := h.accessControlAllowCredentials
    accessControlAllowHeaders := h.accessControlAllowHeaders
    accessControlAllowMethods := h.accessControlAllowMethods
    accessControlAllowOrigin := h.accessControlAllowOrigin
    accessControlExposeHeaders := h.accessControlExposeHeaders
    accessControlMaxAge := h.accessControlMaxAge }

/-- NewHeaderFromStruct from the source: nil input, or input with neither
custom headers nor CORS headers defined, yields nil; otherwise the
middleware instance with the copied options (originHeader starts at its
zero value, the empty string). -/
def NewHeaderFromStruct (headers : Option TypesHeaders) : Option HeaderStruct :=
  match headers with
  | none => none
  | some h =>
    if ¬hasCustomHeadersDefined h ∧ ¬hasCorsHeadersDefined h then none
    else some { opt := optionsOfTypesHeaders h, originHeader := "" }

/-! ## Evaluation lemmas for header operations -/

/-- Reading the key just added returns the old values with the new one
appended. -/
theorem hAdd_same (h : HeaderMap) (k v : String) : hAdd h k v k = h k ++ [v] := by
  simp [hAdd]

/-- Adding at one key leaves every other key unchanged. -/
theorem hAdd_ne (h : HeaderMap) (k v k2 : String) (hne : k2 ≠ k) :
    hAdd h k v k2 = h k2 := by
  simp [hAdd, hne]

/-- Reading the key just set returns exactly the new value. -/
theorem hSet_same (h : HeaderMap) (k v : String) : hSet h k v k = [v] := by
  simp [hSet]

/-- Setting one key leaves every other key unchanged. -/
theorem hSet_ne (h : HeaderMap) (k v k2 : String) (hne : k2 ≠ k) :
    hSet h k v k2 = h k2 := by
  simp [hSet, hne]

/-- One loop step, evaluated at a key. -/
theorem applyOne_eval (h : HeaderMap) (p : String × String) (k : String) :
    applyOne h p k
      = if p.1 = k then (if p.2 = "" then [] else [p.2]) else h k := by
  by_cases hk : p.1 = k
  · subst hk
    by_cases hv : p.2 = "" <;> simp [applyOne, hDel, hSet, hv]
  · have hk2 : ¬k = p.1 := fun h2 => hk h2.symm
    by_cases hv : p.2 = "" <;> simp [applyOne, hDel, hSet, hv, hk, hk2]

/-- The value attached to the last pair of the list carrying the given
key, if any. This is what survives the fold of set/delete steps. -/
def lastEntry (m : List (String × String)) (k : String) : Option String :=
  match m with
  | [] => none
  | p :: rest =>
    match lastEntry rest k with
    | some v => some v
    | none => if p.1 = k then some p.2 else none

/-- The whole custom-header fold, evaluated at a key: the last pair of
the mapping with that key decides the result (empty value deletes,
non-empty value sets); keys not in the mapping are untouched. -/
theorem applyHeaders_eval (m : List (String × String)) :
    ∀ (h : HeaderMap) (k : String),
    applyHeaders h m k =
      match lastEntry m k with
      | some v => if v = "" then [] else [v]
      | none => h k := by
  induction m with
  | nil => intro h k; rfl
  | cons p rest ih =>
    intro h k
    show applyHeaders (applyOne h p) rest k = _
    rw [ih]
    cases hrest : lastEntry rest k with
    | some v => simp [lastEntry, hrest]
    | none =>
      simp only [lastEntry, hrest]
      rw [applyOne_eval]
      by_cases hk : p.1 = k <;> simp [hk]

/-- A key is absent from `lastEntry` exactly when it is not among the
keys of the mapping. -/
theorem lastEntry_eq_none_iff (m : List (String × String)) (k : String) :
    lastEntry m k = none ↔ k ∉ m.map Prod.fst := by
  induction m with
  | nil => simp [lastEntry]
  | cons p rest ih =>
    simp only [lastEntry, List.map_cons, List.mem_cons]
    cases hrest : lastEntry rest k with
    | some v =>
      have : k ∈ rest.map Prod.fst := by
        by_contra hc
        rw [← ih] at hc
        rw [hrest] at hc
        exact Option.noConfusion hc
      simp [this]
    | none =>
      have hk : k ∉ rest.map Prod.fst := ih.mp hrest
      by_cases hpk : p.1 = k
      · simp [hpk, hk]
      · have hpk2 : ¬k = p.1 := fun h2 => hpk h2.symm
        simp [hpk, hpk2, hk]

/-- With distinct keys, membership of a pair determines `lastEntry`. -/
theorem lastEntry_eq_some_of_mem (m : List (String × String)) (k v : String)
    (nd : (m.map Prod.fst).Nodup) (hmem : (k, v) ∈ m) :
    lastEntry m k = some v := by
  induction m with
  | nil => cases hmem
  | cons p rest ih =>
    rw [List.map_cons, List.nodup_cons] at nd
    cases List.mem_cons.mp hmem with
    | inl heq =>
      have hk : p.1 = k := by rw [← heq]
      have habs : k ∉ rest.map Prod.fst := hk ▸ nd.1
      have hnone : lastEntry rest k = none := (lastEntry_eq_none_iff rest k).mpr habs
      have hv : p.2 = v := by rw [← heq]
      simp [lastEntry, hnone, hk, hv]
    | inr hrest =>
      have := ih nd.2 hrest
      simp [lastEntry, this]

/-- A pair produced by `lastEntry` is a member of the mapping. -/
theorem mem_of_lastEntry_eq_some (m : List (String × String)) (k v : String)
    (h : lastEntry m k = some v) : (k, v) ∈ m := by
  induction m with
  | nil => exact Option.noConfusion h
  | cons p rest ih =>
    simp only [lastEntry] at h
    cases hrest : lastEntry rest k with
    | some w =>
      rw [hrest] at h
      exact List.mem_cons_of_mem p (ih (hrest.trans h))
    | none =>
      rw [hrest] at h
      by_cases hk : p.1 = k
      · rw [if_pos hk] at h
        have : p = (k, v) := by
          cases p
          simp only [Option.some.injEq] at h
          simp_all
        exact this ▸ List.mem_cons_self p rest
      · rw [if_neg hk] at h
        exact Option.noConfusion h

/-- Permuting a mapping with distinct keys does not change `lastEntry`. -/
theorem lastEntry_perm (m m2 : List (String × String))
    (hp : m2.Perm m) (nd : (m.map Prod.fst).Nodup) (k : String) :
    lastEntry m2 k = lastEntry m k := by
  cases hm : lastEntry m2 k with
  | some v =>
    have hmem : (k, v) ∈ m := hp.subset (mem_of_lastEntry_eq_some m2 k v hm)
    exact (lastEntry_eq_some_of_mem m k v nd hmem).symm
  | none =>
    have h1 : k ∉ m2.map Prod.fst := (lastEntry_eq_none_iff m2 k).mp hm
    have h2 : k ∉ m.map Prod.fst := fun hc =>
      h1 ((hp.map Prod.fst).mem_iff.mpr hc)
    exact ((lastEntry_eq_none_iff m k).mpr h2).symm

/-! ## Evaluation of the preflight response builder -/

/-- The credentials step touches only its own header. -/
theorem addCredentialsStep_ne (s1 : HeaderStruct) (w : HeaderMap) (k : String)
    (hk : k ≠ "Access-Control-Allow-Credentials") :
    addCredentialsStep s1 w k = w k := by
  unfold addCredentialsStep
  split
  · rw [hAdd_ne _ _ _ _ hk]
  · rfl

/-- The credentials step at its own header: appends "true" exactly when
the credentials flag is set. -/
theorem addCredentialsStep_same (s1 : HeaderStruct) (w : HeaderMap) :
    addCredentialsStep s1 w "Access-Control-Allow-Credentials"
      = w "Access-Control-Allow-Credentials"
        ++ (if s1.opt.accessControlAllowCredentials then ["true"] else []) := by
  unfold addCredentialsStep
  split <;> rename_i h <;> simp [h, hAdd_same]

/-- The allow-headers step touches only its own header. -/
theorem addAllowHeadersStep_ne (s1 : HeaderStruct) (w : HeaderMap) (k : String)
    (hk : k ≠ "Access-Control-Allow-Headers") :
    addAllowHeadersStep s1 w k = w k := by
  unfold addAllowHeadersStep
  split
  · rw [hAdd_ne _ _ _ _ hk]
  · rfl

/-- The allow-headers step at its own header: appends the joined list
exactly when the joined list is non-empty. -/
theorem addAllowHeadersStep_same (s1 : HeaderStruct) (w : HeaderMap) :
    addAllowHeadersStep s1 w "Access-Control-Allow-Headers"
      = w "Access-Control-Allow-Headers"
        ++ (if joinComma s1.opt.accessControlAllowHeaders ≠ ""
            then [joinComma s1.opt.accessControlAllowHeaders] else []) := by
  unfold addAllowHeadersStep
  split <;> rename_i h <;> simp [h, hAdd_same]

/-- The allow-methods step touches only its own header. -/
theorem addAllowMethodsStep_ne (s1 : HeaderStruct) (w : HeaderMap) (k : String)
    (hk : k ≠ "Access-Control-Allow-Methods") :
    addAllowMethodsStep s1 w k = w k := by
  unfold addAllowMethodsStep
  split
  · rw [hAdd_ne _ _ _ _ hk]
  · rfl

/-- The allow-methods step at its own header: appends the joined list
exactly when the joined list is non-empty. -/
theorem addAllowMethodsStep_same (s1 : HeaderStruct) (w : HeaderMap) :
    addAllowMethodsStep s1 w "Access-Control-Allow-Methods"
      = w "Access-Control-Allow-Methods"
        ++ (if joinComma s1.opt.accessControlAllowMethods ≠ ""
            then [joinComma s1.opt.accessControlAllowMethods] else []) := by
  unfold addAllowMethodsStep
  split <;> rename_i h <;> simp [h, hAdd_same]

/-- The allow-origin step touches only its own header. -/
theorem addAllowOriginStep_ne (s1 : HeaderStruct) (w : HeaderMap) (k : String)
    (hk : k ≠ "Access-Control-Allow-Origin") :
    addAllowOriginStep s1 w k = w k := by
  unfold addAllowOriginStep
  split
  · rw [hAdd_ne _ _ _ _ hk]
  · rfl

/-- When origin resolution fails, the allow-origin step adds nothing. -/
theorem addAllowOriginStep_error (s1 : HeaderStruct) (w : HeaderMap)
    (e : String) (he : getAllowOrigin s1 = Except.error e) :
    addAllowOriginStep s1 w = w := by
  unfold addAllowOriginStep
  rw [he]
  simp

/-- When origin resolution succeeds, the step appends the resolved
value (resolution never returns the empty string on success). -/
theorem addAllowOriginStep_ok (s1 : HeaderStruct) (w : HeaderMap)
    (v : String) (hv : getAllowOrigin s1 = Except.ok v) (hne : v ≠ "") :
    addAllowOriginStep s1 w "Access-Control-Allow-Origin"
      = w "Access-Control-Allow-Origin" ++ [v] := by
  unfold addAllowOriginStep
  rw [hv]
  simp [hne, hAdd_same]

/-- The max-age step at its own header: always appends the rendered
value. -/
theorem addMaxAgeStep_same (s1 : HeaderStruct) (w : HeaderMap) :
    addMaxAgeStep s1 w "Access-Control-Max-Age"
      = w "Access-Control-Max-Age" ++ [toString s1.opt.accessControlMaxAge] := by
  unfold addMaxAgeStep
  rw [hAdd_same]

/-- The max-age step touches only its own header. -/
theorem addMaxAgeStep_ne (s1 : HeaderStruct) (w : HeaderMap) (k : String)
    (hk : k ≠ "Access-Control-Max-Age") :
    addMaxAgeStep s1 w k = w k := by
  unfold addMaxAgeStep
  rw [hAdd_ne _ _ _ _ hk]

/-- A successful origin resolution never yields the empty string. -/
theorem getAllowOrigin_ok_ne_empty (s1 : HeaderStruct) (v : String)
    (hv : getAllowOrigin s1 = Except.ok v) : v ≠ "" := by
  unfold getAllowOrigin at hv
  by_cases h1 : s1.opt.accessControlAllowOrigin = "origin-list-or-null"
  · rw [if_pos h1] at hv
    by_cases h2 : s1.originHeader = ""
    · rw [if_pos h2] at hv
      cases hv
      decide
    · rw [if_neg h2] at hv
      cases hv
      exact h2
  · rw [if_neg h1] at hv
    by_cases h3 : s1.opt.accessControlAllowOrigin = "*"
    · rw [if_pos h3] at hv
      cases hv
      decide
    · rw [if_neg h3] at hv
      exact Except.noConfusion hv

/-- Every preflight response carries the Access-Control-Max-Age header,
appended after everything else. -/
theorem preflightResponse_maxAge (s1 : HeaderStruct) (w : HeaderMap) :
    preflightResponse s1 w "Access-Control-Max-Age"
      = w "Access-Control-Max-Age" ++ [toString s1.opt.accessControlMaxAge] := by
  unfold preflightResponse
  rw [addMaxAgeStep_same]
  rw [addAllowOriginStep_ne _ _ _ (by decide)]
  rw [addAllowMethodsStep_ne _ _ _ (by decide)]
  rw [addAllowHeadersStep_ne _ _ _ (by decide)]
  rw [addCredentialsStep_ne _ _ _ (by decide)]

/-- When origin resolution fails, the preflight response leaves the
Access-Control-Allow-Origin header untouched. -/
theorem preflightResponse_origin_error (s1 : HeaderStruct) (w : HeaderMap)
    (e : String) (he : getAllowOrigin s1 = Except.error e) :
    preflightResponse s1 w "Access-Control-Allow-Origin"
      = w "Access-Control-Allow-Origin" := by
  unfold preflightResponse
  rw [addMaxAgeStep_ne _ _ _ (by decide)]
  rw [addAllowOriginStep_error _ _ _ he]
  rw [addAllowMethodsStep_ne _ _ _ (by decide)]
  rw [addAllowHeadersStep_ne _ _ _ (by decide)]
  rw [addCredentialsStep_ne _ _ _ (by decide)]

/-- The preflight response at the credentials header. -/
theorem preflightResponse_credentials (s1 : HeaderStruct) (w : HeaderMap) :
    preflightResponse s1 w "Access-Control-Allow-Credentials"
      = w "Access-Control-Allow-Credentials"
        ++ (if s1.opt.accessControlAllowCredentials then ["true"] else []) := by
  unfold preflightResponse
  rw [addMaxAgeStep_ne _ _ _ (by decide)]
  rw [addAllowOriginStep_ne _ _ _ (by decide)]
  rw [addAllowMethodsStep_ne _ _ _ (by decide)]
  rw [addAllowHeadersStep_ne _ _ _ (by decide)]
  rw [addCredentialsStep_same]

/-- The preflight response at the allow-headers header. -/
theorem preflightResponse_allowHeaders (s1 : HeaderStruct) (w : HeaderMap) :
    preflightResponse s1 w "Access-Control-Allow-Headers"
      = w "Access-Control-Allow-Headers"
        ++ (if joinComma s1.opt.accessControlAllowHeaders ≠ ""
            then [joinComma s1.opt.accessControlAllowHeaders] else []) := by
  unfold preflightResponse
  rw [addMaxAgeStep_ne _ _ _ (by decide)]
  rw [addAllowOriginStep_ne _ _ _ (by decide)]
  rw [addAllowMethodsStep_ne _ _ _ (by decide)]
  rw [addAllowHeadersStep_same]
  rw [addCredentialsStep_ne _ _ _ (by decide)]

/-- The preflight response at the allow-methods header. -/
theorem preflightResponse_allowMethods (s1 : HeaderStruct) (w : HeaderMap) :
    preflightResponse s1 w "Access-Control-Allow-Methods"
      = w "Access-Control-Allow-Methods"
        ++ (if joinComma s1.opt.accessControlAllowMethods ≠ ""
            then [joinComma s1.opt.accessControlAllowMethods] else []) := by
  unfold preflightResponse
  rw [addMaxAgeStep_ne _ _ _ (by decide)]
  rw [addAllowOriginStep_ne _ _ _ (by decide)]
  rw [addAllowMethodsStep_same]
  rw [addAllowHeadersStep_ne _ _ _ (by decide)]
  rw [addCredentialsStep_ne _ _ _ (by decide)]

/-! ## Evaluation of the response-modification steps -/

/-- The origin set-step touches only its own header. -/
theorem setAllowOriginStep_ne (v : String) (h : HeaderMap) (k : String)
    (hk : k ≠ "Access-Control-Allow-Origin") :
    setAllowOriginStep v h k = h k := by
  unfold setAllowOriginStep
  split
  · rw [hSet_ne _ _ _ _ hk]
  · rfl

/-- The origin set-step at its own header, for a non-empty origin. -/
theorem setAllowOriginStep_same (v : String) (h : HeaderMap) (hv : v ≠ "") :
    setAllowOriginStep v h "Access-Control-Allow-Origin" = [v] := by
  unfold setAllowOriginStep
  rw [if_pos hv, hSet_same]

/-- The credentials set-step touches only its own header. -/
theorem setCredentialsStep_ne (s : HeaderStruct) (h : HeaderMap) (k : String)
    (hk : k ≠ "Access-Control-Allow-Credentials") :
    setCredentialsStep s h k = h k := by
  unfold setCredentialsStep
  split
  · rw [hSet_ne _ _ _ _ hk]
  · rfl

/-- The credentials set-step at its own header: overwrites with "true"
exactly when the flag is set. -/
theorem setCredentialsStep_same (s : HeaderStruct) (h : HeaderMap) :
    setCredentialsStep s h "Access-Control-Allow-Credentials"
      = if s.opt.accessControlAllowCredentials then ["true"]
        else h "Access-Control-Allow-Credentials" := by
  unfold setCredentialsStep
  split <;> rename_i hf <;> simp [hf, hSet_same]

/-- The expose set-step touches only its own header. -/
theorem setExposeStep_ne (s : HeaderStruct) (h : HeaderMap) (k : String)
    (hk : k ≠ "Access-Control-Expose-Headers") :
    setExposeStep s h k = h k := by
  unfold setExposeStep
  split
  · rw [hSet_ne _ _ _ _ hk]
  · rfl

/-- The expose set-step at its own header: overwrites with the joined
list exactly when the joined list is non-empty. -/
theorem setExposeStep_same (s : HeaderStruct) (h : HeaderMap) :
    setExposeStep s h "Access-Control-Expose-Headers"
      = if joinComma s.opt.accessControlExposeHeaders ≠ ""
        then [joinComma s.opt.accessControlExposeHeaders]
        else h "Access-Control-Expose-Headers" := by
  unfold setExposeStep
  split <;> rename_i hf <;> simp [hf, hSet_same]

/-- With an invalid configuration value, origin resolution returns the
error carrying the offending value. -/
theorem getAllowOrigin_invalid (s : HeaderStruct)
    (h1 : s.opt.accessControlAllowOrigin ≠ "origin-list-or-null")
    (h2 : s.opt.accessControlAllowOrigin ≠ "*") :
    getAllowOrigin s = Except.error
      ("invalid Access-Control-Allow-Origin setting: "
        ++ s.opt.accessControlAllowOrigin) := by
  simp [getAllowOrigin, h1, h2]

/-- With one of the two valid configuration values, origin resolution
succeeds. -/
theorem getAllowOrigin_valid_ok (s : HeaderStruct)
    (hv : s.opt.accessControlAllowOrigin = "origin-list-or-null"
      ∨ s.opt.accessControlAllowOrigin = "*") :
    ∃ v, getAllowOrigin s = Except.ok v := by
  rcases hv with h | h
  · by_cases ho : s.originHeader = ""
    · exact ⟨"null", by simp [getAllowOrigin, h, ho]⟩
    · exact ⟨s.originHeader, by simp [getAllowOrigin, h, ho]⟩
  · exact ⟨"*", by simp [getAllowOrigin, h]⟩

/-! ## Branch lemmas for ServeHTTP -/

/-- When all four preflight conditions hold, ServeHTTP takes the
preflight branch, for every continuation. -/
theorem serveHTTP_preflight_eq (s : HeaderStruct) (w : HeaderMap) (r : Request)
    (next : Option (HeaderMap → Request → HeaderMap))
    (hc : hGet r.header "Access-Control-Request-Method" ≠ ""
      ∧ hGet r.header "Access-Control-Request-Headers" ≠ ""
      ∧ hGet r.header "Origin" ≠ ""
      ∧ r.method = "OPTIONS") :
    ServeHTTP s w r next
      = { s := captureOrigin s r
          w := preflightResponse (captureOrigin s r) w
          r := r
          preflight := true
          usedNext := false } := by
  simp only [ServeHTTP]
  rw [if_pos]
  exact ⟨hc.1, hc.2.1, hc.2.2.1, hc.2.2.2⟩

/-- When the preflight conditions fail and a continuation is supplied,
ServeHTTP mutates the request and calls the continuation. -/
theorem serveHTTP_nonpreflight_some (s : HeaderStruct) (w : HeaderMap)
    (r : Request) (f : HeaderMap → Request → HeaderMap)
    (hc : ¬(hGet r.header "Access-Control-Request-Method" ≠ ""
      ∧ hGet r.header "Access-Control-Request-Headers" ≠ ""
      ∧ hGet r.header "Origin" ≠ ""
      ∧ r.method = "OPTIONS")) :
    ServeHTTP s w r (some f)
      = { s := captureOrigin s r
          w := f w (ModifyRequestHeaders (captureOrigin s r) r)
          r := ModifyRequestHeaders (captureOrigin s r) r
          preflight := false
          usedNext := true } := by
  simp only [ServeHTTP]
  rw [if_neg]
  exact fun hcon => hc ⟨hcon.1, hcon.2.1, hcon.2.2.1, hcon.2.2.2⟩

/-- When the preflight conditions fail and no continuation is supplied,
ServeHTTP mutates the request and does nothing further. -/
theorem serveHTTP_nonpreflight_none (s : HeaderStruct) (w : HeaderMap)
    (r : Request)
    (hc : ¬(hGet r.header "Access-Control-Request-Method" ≠ ""
      ∧ hGet r.header "Access-Control-Request-Headers" ≠ ""
      ∧ hGet r.header "Origin" ≠ ""
      ∧ r.method = "OPTIONS")) :
    ServeHTTP s w r none
      = { s := captureOrigin s r
          w := w
          r := ModifyRequestHeaders (captureOrigin s r) r
          preflight := false
          usedNext := false } := by
  simp only [ServeHTTP]
  rw [if_neg]
  exact fun hcon => hc ⟨hcon.1, hcon.2.1, hcon.2.2.1, hcon.2.2.2⟩

/-! ## Concrete fixtures used by witnesses and counterexamples -/

/-- Options with the wildcard origin configuration. -/
def optStar : HeaderOptions :=
  { customRequestHeaders := []
    customResponseHeaders := []
    accessControlAllowCredentials := false
    accessControlAllowHeaders := []
    accessControlAllowMethods := []
    accessControlAllowOrigin := "*"
    accessControlExposeHeaders := []
    accessControlMaxAge := 600 }

/-- A middleware instance with the wildcard origin configuration. -/
def sStar : HeaderStruct := { opt := optStar, originHeader := "" }

/-- Options with an invalid origin configuration value. -/
def optBogus : HeaderOptions :=
  { customRequestHeaders := []
    customResponseHeaders := []
    accessControlAllowCredentials := true
    accessControlAllowHeaders := []
    accessControlAllowMethods := []
    accessControlAllowOrigin := "bogus"
    accessControlExposeHeaders := []
    accessControlMaxAge := 0 }

/-- A middleware instance with an invalid origin configuration. -/
def sBogus : HeaderStruct := { opt := optBogus, originHeader := "https://a.test" }

/-- Options with the origin-reflection configuration. -/
def optOriginList : HeaderOptions :=
  { customRequestHeaders := []
    customResponseHeaders := []
    accessControlAllowCredentials := false
    accessControlAllowHeaders := []
    accessControlAllowMethods := []
    accessControlAllowOrigin := "origin-list-or-null"
    accessControlExposeHeaders := []
    accessControlMaxAge := 0 }

/-- Options whose expose list is non-empty yet joins to the empty
string. -/
def optExposeBlank : HeaderOptions :=
  { customRequestHeaders := []
    customResponseHeaders := []
    accessControlAllowCredentials := false
    accessControlAllowHeaders := []
    accessControlAllowMethods := []
    accessControlAllowOrigin := "*"
    accessControlExposeHeaders := [""]
    accessControlMaxAge := 0 }

/-- A middleware instance for the expose-headers edge case. -/
def sExposeBlank : HeaderStruct := { opt := optExposeBlank, originHeader := "" }

/-- A complete preflight request. -/
def reqPreflight : Request :=
  { header := fun k =>
      if k = "Access-Control-Request-Method" then ["GET"]
      else if k = "Access-Control-Request-Headers" then ["X-Foo"]
      else if k = "Origin" then ["https://a.test"]
      else []
    method := "OPTIONS" }

/-- A plain request from origin a.test. -/
def reqFromA : Request :=
  { header := fun k => if k = "Origin" then ["https://a.test"] else []
    method := "GET" }

/-- A plain request from origin b.test. -/
def reqFromB : Request :=
  { header := fun k => if k = "Origin" then ["https://b.test"] else []
    method := "GET" }

/-- A sample header set holding one header. -/
def hSample : HeaderMap := fun k => if k = "X-B" then ["old"] else []

/-- A construction input whose only configured field is the invalid
origin value. -/
def tBogus : TypesHeaders :=
  { customRequestHeaders := []
    customResponseHeaders := []
    accessControlAllowCredentials := false
    accessControlAllowHeaders := []
    accessControlAllowMethods := []
    accessControlAllowOrigin := "bogus"
    accessControlExposeHeaders := []
    accessControlMaxAge := 0 }

/-- Options with a custom response header and an invalid origin
configuration. -/
def optCustomBogus : HeaderOptions :=
  { customRequestHeaders := []
    customResponseHeaders := [("X-A", "1"), ("X-B", "")]
    accessControlAllowCredentials := true
    accessControlAllowHeaders := []
    accessControlAllowMethods := []
    accessControlAllowOrigin := "bogus"
    accessControlExposeHeaders := ["X-A"]
    accessControlMaxAge := 0 }

/-- A middleware instance combining custom response headers with an
invalid origin configuration. -/
def sCustomBogus : HeaderStruct := { opt := optCustomBogus, originHeader := "" }

/-! ## Claim theorems -/

/-- Claim C1: the preflight branch of ServeHTTP is taken if and only if
the request method is exactly OPTIONS and the
Access-Control-Request-Method, Access-Control-Request-Headers and Origin
headers are all non-empty; otherwise the non-preflight branch is taken. -/
theorem c1_preflight_branch_iff (s : HeaderStruct) (w : HeaderMap)
    (r : Request) (next : Option (HeaderMap → Request → HeaderMap)) :
    (ServeHTTP s w r next).preflight = true ↔
      (hGet r.header "Access-Control-Request-Method" ≠ ""
        ∧ hGet r.header "Access-Control-Request-Headers" ≠ ""
        ∧ hGet r.header "Origin" ≠ ""
        ∧ r.method = "OPTIONS") := by
  by_cases hc : (hGet r.header "Access-Control-Request-Method" ≠ ""
      ∧ hGet r.header "Access-Control-Request-Headers" ≠ ""
      ∧ hGet r.header "Origin" ≠ ""
      ∧ r.method = "OPTIONS")
  · rw [serveHTTP_preflight_eq s w r next hc]
    simpa using hc
  · cases next with
    | some f =>
      rw [serveHTTP_nonpreflight_some s w r f hc]
      simpa using hc
    | none =>
      rw [serveHTTP_nonpreflight_none s w r hc]
      simpa using hc

/-- Claim C3: origin resolution is a function of the allowOrigin
configuration and the captured origin: the "origin-list-or-null"
configuration returns the literal "null" for an empty captured origin
and the captured origin verbatim otherwise; the "*" configuration always
returns "*"; and any other configuration fails with the
invalid-configuration error carrying the offending value, independently
of the captured origin. -/
theorem c3_getAllowOrigin_spec (s : HeaderStruct) :
    (s.opt.accessControlAllowOrigin = "origin-list-or-null" →
      s.originHeader = "" → getAllowOrigin s = Except.ok "null")
    ∧ (s.opt.accessControlAllowOrigin = "origin-list-or-null" →
      s.originHeader ≠ "" → getAllowOrigin s = Except.ok s.originHeader)
    ∧ (s.opt.accessControlAllowOrigin = "*" →
      getAllowOrigin s = Except.ok "*")
    ∧ (s.opt.accessControlAllowOrigin ≠ "origin-list-or-null" →
      s.opt.accessControlAllowOrigin ≠ "*" →
      getAllowOrigin s = Except.error
          ("invalid Access-Control-Allow-Origin setting: "
            ++ s.opt.accessControlAllowOrigin)
        ∧ ∀ o, getAllowOrigin { s with originHeader := o } = getAllowOrigin s) := by
  refine ⟨?_, ?_, ?_, ?_⟩
  · intro hcfg ho
    simp [getAllowOrigin, hcfg, ho]
  · intro hcfg ho
    simp [getAllowOrigin, hcfg, ho]
  · intro hcfg
    simp [getAllowOrigin, hcfg]
  · intro h1 h2
    refine ⟨getAllowOrigin_invalid s h1 h2, fun o => ?_⟩
    rw [getAllowOrigin_invalid s h1 h2]
    exact getAllowOrigin_invalid { s with originHeader := o } h1 h2

/-- Witness for C3: concrete evaluation with the invalid configuration
value "bogus". -/
theorem c3_getAllowOrigin_spec_witness :
    getAllowOrigin sBogus
      = Except.error ("invalid Access-Control-Allow-Origin setting: "
          ++ sBogus.opt.accessControlAllowOrigin) :=
  ((c3_getAllowOrigin_spec sBogus).2.2.2 (by decide) (by decide)).1

/-- Claim C6: for every pair of the configured mapping, the custom-header
mutation deletes the header when the configured value is empty and
otherwise overwrites it with exactly the configured value, and the
result does not depend on the iteration order over the mapping. -/
theorem c6_applyHeaders_mapping (h : HeaderMap) (m : List (String × String))
    (nd : (m.map Prod.fst).Nodup) :
    (∀ name value, (name, value) ∈ m →
      (value = "" → applyHeaders h m name = [])
        ∧ (value ≠ "" → applyHeaders h m name = [value]))
    ∧ (∀ m2, m2.Perm m → applyHeaders h m2 = applyHeaders h m) := by
  constructor
  · intro name value hmem
    have hlast := lastEntry_eq_some_of_mem m name value nd hmem
    constructor
    · intro hv
      rw [applyHeaders_eval, hlast]
      simp [hv]
    · intro hv
      rw [applyHeaders_eval, hlast]
      simp [hv]
  · intro m2 hp
    funext k
    rw [applyHeaders_eval, applyHeaders_eval, lastEntry_perm m m2 hp nd k]

/-- Witness for C6: a concrete mapping that sets one header and deletes
another. -/
theorem c6_applyHeaders_mapping_witness :
    applyHeaders hSample [("X-A", "1"), ("X-B", "")] "X-A" = ["1"]
    ∧ applyHeaders hSample [("X-A", "1"), ("X-B", "")] "X-B" = [] :=
  ⟨((c6_applyHeaders_mapping hSample [("X-A", "1"), ("X-B", "")]
        (by decide)).1 "X-A" "1" (by decide)).2 (by decide),
   ((c6_applyHeaders_mapping hSample [("X-A", "1"), ("X-B", "")]
        (by decide)).1 "X-B" "" (by decide)).1 rfl⟩

/-- Claim C8: the custom-header mutation is idempotent: applying it
twice with the same mapping gives the same header set as applying it
once. -/
theorem c8_applyHeaders_idempotent (h : HeaderMap)
    (m : List (String × String)) :
    applyHeaders (applyHeaders h m) m = applyHeaders h m := by
  funext k
  rw [applyHeaders_eval, applyHeaders_eval]
  cases hm : lastEntry m k with
  | some v => rfl
  | none => rfl

/-- Claim C2: on the preflight branch the continuation is never invoked
(the outcome is the same for every continuation); on the non-preflight
branch the request-header mutation is applied to the live request and
then the continuation is invoked with it exactly when the continuation
is non-null, and with a null continuation nothing further happens. -/
theorem c2_next_invocation (s : HeaderStruct) (w : HeaderMap) (r : Request)
    (next : Option (HeaderMap → Request → HeaderMap)) :
    ((ServeHTTP s w r next).preflight = true →
      (ServeHTTP s w r next).usedNext = false
        ∧ ServeHTTP s w r next = ServeHTTP s w r none)
    ∧ ((ServeHTTP s w r next).preflight = false →
      (ServeHTTP s w r next).r = ModifyRequestHeaders (captureOrigin s r) r
        ∧ (∀ g, next = some g →
            (ServeHTTP s w r next).usedNext = true
              ∧ (ServeHTTP s w r next).w
                  = g w (ModifyRequestHeaders (captureOrigin s r) r))
        ∧ (next = none →
            (ServeHTTP s w r next).usedNext = false
              ∧ (ServeHTTP s w r next).w = w)) := by
  by_cases hc : (hGet r.header "Access-Control-Request-Method" ≠ ""
      ∧ hGet r.header "Access-Control-Request-Headers" ≠ ""
      ∧ hGet r.header "Origin" ≠ ""
      ∧ r.method = "OPTIONS")
  · rw [serveHTTP_preflight_eq s w r next hc,
      serveHTTP_preflight_eq s w r none hc]
    refine ⟨fun _ => ⟨rfl, rfl⟩, fun hfalse => ?_⟩
    simp at hfalse
  · cases next with
    | some f =>
      rw [serveHTTP_nonpreflight_some s w r f hc]
      refine ⟨fun htrue => ?_, fun _ => ⟨rfl, ?_, ?_⟩⟩
      · simp at htrue
      · intro g hg
        injection hg with hfg
        subst hfg
        exact ⟨rfl, rfl⟩
      · intro hnone
        exact Option.noConfusion hnone
    | none =>
      rw [serveHTTP_nonpreflight_none s w r hc]
      refine ⟨fun htrue => ?_, fun _ => ⟨rfl, ?_, fun _ => ⟨rfl, rfl⟩⟩⟩
      · simp at htrue
      · intro g hg
        exact Option.noConfusion hg

/-- Witness for C2: on a concrete preflight request the supplied
continuation is not used, and on a concrete plain request it is. -/
theorem c2_next_invocation_witness :
    (ServeHTTP sStar hEmpty reqPreflight (some fun w2 _ => w2)).usedNext = false
    ∧ (ServeHTTP sStar hEmpty reqFromA (some fun w2 _ => w2)).usedNext = true :=
  ⟨((c2_next_invocation sStar hEmpty reqPreflight (some fun w2 _ => w2)).1
      (by decide)).1,
   (((c2_next_invocation sStar hEmpty reqFromA (some fun w2 _ => w2)).2
      (by decide)).2.1 (fun w2 _ => w2) rfl).1⟩

/-- Claim C4: on the preflight branch Access-Control-Max-Age is always
added with the decimal rendering of maxAge (even when maxAge is zero and
even when origin resolution fails), and when the allowOrigin
configuration is invalid the error is suppressed: no
Access-Control-Allow-Origin header is added, while the headers added
before the failure are still present. -/
theorem c4_preflight_error_suppressed (s : HeaderStruct) (w : HeaderMap)
    (r : Request) (next : Option (HeaderMap → Request → HeaderMap))
    (hc : hGet r.header "Access-Control-Request-Method" ≠ ""
      ∧ hGet r.header "Access-Control-Request-Headers" ≠ ""
      ∧ hGet r.header "Origin" ≠ ""
      ∧ r.method = "OPTIONS") :
    ((ServeHTTP s w r next).w "Access-Control-Max-Age"
        = w "Access-Control-Max-Age"
          ++ [toString s.opt.accessControlMaxAge])
    ∧ (s.opt.accessControlAllowOrigin ≠ "origin-list-or-null" →
      s.opt.accessControlAllowOrigin ≠ "*" →
      (ServeHTTP s w r next).w "Access-Control-Allow-Origin"
          = w "Access-Control-Allow-Origin"
        ∧ (ServeHTTP s w r next).w "Access-Control-Allow-Credentials"
            = w "Access-Control-Allow-Credentials"
              ++ (if s.opt.accessControlAllowCredentials then ["true"] else [])
        ∧ (ServeHTTP s w r next).w "Access-Control-Allow-Headers"
            = w "Access-Control-Allow-Headers"
              ++ (if joinComma s.opt.accessControlAllowHeaders ≠ ""
                  then [joinComma s.opt.accessControlAllowHeaders] else [])
        ∧ (ServeHTTP s w r next).w "Access-Control-Allow-Methods"
            = w "Access-Control-Allow-Methods"
              ++ (if joinComma s.opt.accessControlAllowMethods ≠ ""
                  then [joinComma s.opt.accessControlAllowMethods] else [])) := by
  rw [serveHTTP_preflight_eq s w r next hc]
  constructor
  · exact preflightResponse_maxAge (captureOrigin s r) w
  · intro h1 h2
    have herr := getAllowOrigin_invalid (captureOrigin s r) h1 h2
    exact ⟨preflightResponse_origin_error (captureOrigin s r) w _ herr,
      preflightResponse_credentials (captureOrigin s r) w,
      preflightResponse_allowHeaders (captureOrigin s r) w,
      preflightResponse_allowMethods (captureOrigin s r) w⟩

/-- Witness for C4: a concrete preflight request against the invalid
configuration with maxAge zero still gets Max-Age "0" and the
credentials header, and no allow-origin header. -/
theorem c4_preflight_error_suppressed_witness :
    (ServeHTTP sBogus hEmpty reqPreflight none).w "Access-Control-Max-Age"
        = ["0"]
    ∧ (ServeHTTP sBogus hEmpty reqPreflight none).w
        "Access-Control-Allow-Origin" = []
    ∧ (ServeHTTP sBogus hEmpty reqPreflight none).w
        "Access-Control-Allow-Credentials" = ["true"] := by
  have h := c4_preflight_error_suppressed sBogus hEmpty reqPreflight none
    ⟨by decide, by decide, by decide, by decide⟩
  have h2 := h.2 (by decide) (by decide)
  exact ⟨h.1.trans (by decide), h2.1.trans (by decide), h2.2.1.trans (by decide)⟩

/-- Counterexample for C5 as stated: with exposeHeaders = [""] the list
is non-empty and the call succeeds, yet the Access-Control-Expose-Headers
header is not set at all (in particular not to the comma-join of the
list), because the source tests the joined string, not the list. -/
theorem c5_expose_counterexample :
    optExposeBlank.accessControlExposeHeaders ≠ []
    ∧ (ModifyResponseHeaders sExposeBlank hEmpty).2 = none
    ∧ (ModifyResponseHeaders sExposeBlank hEmpty).1
        "Access-Control-Expose-Headers" = []
    ∧ (ModifyResponseHeaders sExposeBlank hEmpty).1
        "Access-Control-Expose-Headers"
        ≠ [joinComma optExposeBlank.accessControlExposeHeaders] := by
  refine ⟨by decide, rfl, by decide, by decide⟩

/-- Claim C5 (amended): ModifyResponseHeaders errs exactly when the
allowOrigin configuration is invalid; on success it overwrites
Access-Control-Allow-Origin with the resolved origin, overwrites
Access-Control-Allow-Credentials with "true" exactly when the
credentials flag is set, and overwrites Access-Control-Expose-Headers
with the comma-joined exposeHeaders exactly when that joined string is
non-empty. -/
theorem c5_modifyResponse_spec (s : HeaderStruct) (h : HeaderMap) :
    ((ModifyResponseHeaders s h).2.isSome = true ↔
      (s.opt.accessControlAllowOrigin ≠ "origin-list-or-null"
        ∧ s.opt.accessControlAllowOrigin ≠ "*"))
    ∧ (∀ v, getAllowOrigin s = Except.ok v →
        (ModifyResponseHeaders s h).2 = none
        ∧ (ModifyResponseHeaders s h).1 "Access-Control-Allow-Origin" = [v]
        ∧ (ModifyResponseHeaders s h).1 "Access-Control-Allow-Credentials"
            = (if s.opt.accessControlAllowCredentials then ["true"]
              else applyHeaders h s.opt.customResponseHeaders
                "Access-Control-Allow-Credentials")
        ∧ (ModifyResponseHeaders s h).1 "Access-Control-Expose-Headers"
            = (if joinComma s.opt.accessControlExposeHeaders ≠ ""
              then [joinComma s.opt.accessControlExposeHeaders]
              else applyHeaders h s.opt.customResponseHeaders
                "Access-Control-Expose-Headers")) := by
  cases hao : getAllowOrigin s with
  | error e =>
    have hcfg : s.opt.accessControlAllowOrigin ≠ "origin-list-or-null"
        ∧ s.opt.accessControlAllowOrigin ≠ "*" := by
      constructor
      · intro h1
        obtain ⟨v, hv⟩ := getAllowOrigin_valid_ok s (Or.inl h1)
        rw [hao] at hv
        exact Except.noConfusion hv
      · intro h2
        obtain ⟨v, hv⟩ := getAllowOrigin_valid_ok s (Or.inr h2)
        rw [hao] at hv
        exact Except.noConfusion hv
    constructor
    · simp only [ModifyResponseHeaders, hao]
      simp [hcfg.1, hcfg.2]
    · intro v hv
      exact Except.noConfusion hv
  | ok v0 =>
    have hok : ¬(s.opt.accessControlAllowOrigin ≠ "origin-list-or-null"
        ∧ s.opt.accessControlAllowOrigin ≠ "*") := by
      intro hcon
      rw [getAllowOrigin_invalid s hcon.1 hcon.2] at hao
      exact Except.noConfusion hao
    constructor
    · simp only [ModifyResponseHeaders, hao]
      simpa using hok
    · intro v hv
      injection hv with hv0
      subst hv0
      have hne := getAllowOrigin_ok_ne_empty s v0 hao
      refine ⟨?_, ?_, ?_, ?_⟩
      · simp only [ModifyResponseHeaders, hao]
      · simp only [ModifyResponseHeaders, hao]
        rw [setExposeStep_ne _ _ _ (by decide),
          setCredentialsStep_ne _ _ _ (by decide),
          setAllowOriginStep_same v0 _ hne]
      · simp only [ModifyResponseHeaders, hao]
        rw [setExposeStep_ne _ _ _ (by decide), setCredentialsStep_same,
          setAllowOriginStep_ne _ _ _ (by decide)]
      · simp only [ModifyResponseHeaders, hao]
        rw [setExposeStep_same, setCredentialsStep_ne _ _ _ (by decide),
          setAllowOriginStep_ne _ _ _ (by decide)]

/-- Witness for C5: concrete evaluation with the wildcard configuration
and an expose list that joins to a non-empty string. -/
theorem c5_modifyResponse_spec_witness :
    (ModifyResponseHeaders sCustomBogus hEmpty).2.isSome = true
    ∧ (ModifyResponseHeaders sStar hSample).2 = none
    ∧ (ModifyResponseHeaders sStar hSample).1
        "Access-Control-Allow-Origin" = ["*"] := by
  have h1 := (c5_modifyResponse_spec sCustomBogus hEmpty).1.mpr
    ⟨by decide, by decide⟩
  have h2 := (c5_modifyResponse_spec sStar hSample).2 "*" rfl
  exact ⟨h1, h2.1, h2.2.1⟩

/-- Claim C10: whenever ModifyResponseHeaders returns the error, the
custom response-header mutations have already been applied to the
response header set, and none of the three CORS response headers have
been touched by it. -/
theorem c10_modifyResponse_error_state (s : HeaderStruct) (h : HeaderMap)
    (e : String) (he : (ModifyResponseHeaders s h).2 = some e) :
    (ModifyResponseHeaders s h).1 = applyHeaders h s.opt.customResponseHeaders
    ∧ (ModifyResponseHeaders s h).1 "Access-Control-Allow-Origin"
        = applyHeaders h s.opt.customResponseHeaders
            "Access-Control-Allow-Origin"
    ∧ (ModifyResponseHeaders s h).1 "Access-Control-Allow-Credentials"
        = applyHeaders h s.opt.customResponseHeaders
            "Access-Control-Allow-Credentials"
    ∧ (ModifyResponseHeaders s h).1 "Access-Control-Expose-Headers"
        = applyHeaders h s.opt.customResponseHeaders
            "Access-Control-Expose-Headers" := by
  cases hao : getAllowOrigin s with
  | ok v =>
    simp only [ModifyResponseHeaders, hao] at he
    exact Option.noConfusion he
  | error e2 =>
    have hstate : (ModifyResponseHeaders s h).1
        = applyHeaders h s.opt.customResponseHeaders := by
      simp only [ModifyResponseHeaders, hao]
    exact ⟨hstate, by rw [hstate], by rw [hstate], by rw [hstate]⟩

/-- Witness for C10: with custom response headers and the invalid
configuration, the custom set and delete are visible on the error path
while the CORS credentials header was never written. -/
theorem c10_modifyResponse_error_state_witness :
    (ModifyResponseHeaders sCustomBogus hSample).1 "X-A" = ["1"]
    ∧ (ModifyResponseHeaders sCustomBogus hSample).1 "X-B" = []
    ∧ (ModifyResponseHeaders sCustomBogus hSample).1
        "Access-Control-Allow-Credentials" = [] := by
  have h := c10_modifyResponse_error_state sCustomBogus hSample
    "invalid Access-Control-Allow-Origin setting: bogus" (by decide)
  exact ⟨(congrFun h.1 "X-A").trans (by decide),
    (congrFun h.1 "X-B").trans (by decide),
    h.2.2.1.trans (by decide)⟩

/-- Claim C7: construction yields no middleware instance exactly when
the input is absent or configures neither custom headers nor CORS
headers; it never fails otherwise, and in particular an invalid
allowOrigin value still yields an instance carrying that value. -/
theorem c7_construction_spec (hs : Option TypesHeaders) :
    (NewHeaderFromStruct hs = none ↔
      (hs = none ∨ ∃ t, hs = some t
        ∧ ¬hasCustomHeadersDefined t ∧ ¬hasCorsHeadersDefined t))
    ∧ (∀ t, hs = some t →
      t.accessControlAllowOrigin ≠ "origin-list-or-null" →
      t.accessControlAllowOrigin ≠ "*" →
      t.accessControlAllowOrigin ≠ "" →
      ∃ st, NewHeaderFromStruct hs = some st
        ∧ st.opt.accessControlAllowOrigin = t.accessControlAllowOrigin) := by
  cases hs with
  | none =>
    constructor
    · simp [NewHeaderFromStruct]
    · intro t ht
      exact Option.noConfusion ht
  | some t =>
    constructor
    · by_cases hcond : (¬hasCustomHeadersDefined t ∧ ¬hasCorsHeadersDefined t)
      · simp only [NewHeaderFromStruct]
        rw [if_pos hcond]
        exact ⟨fun _ => Or.inr ⟨t, rfl, hcond⟩, fun _ => rfl⟩
      · simp only [NewHeaderFromStruct]
        rw [if_neg hcond]
        constructor
        · intro hsome
          exact Option.noConfusion hsome
        · intro hor
          rcases hor with hn | ⟨t2, ht2, hcu, hco⟩
          · exact Option.noConfusion hn
          · injection ht2 with he
            subst he
            exact absurd ⟨hcu, hco⟩ hcond
    · intro t2 ht2 h1 h2 h3
      injection ht2 with he
      subst he
      have hcors : hasCorsHeadersDefined t = true := by
        simp [hasCorsHeadersDefined, h3]
      refine ⟨{ opt := optionsOfTypesHeaders t, originHeader := "" }, ?_, rfl⟩
      simp only [NewHeaderFromStruct]
      rw [if_neg (fun hcon => hcon.2 hcors)]

/-- Witness for C7: the input configuring only the invalid origin value
"bogus" still produces an instance carrying it. -/
theorem c7_construction_spec_witness :
    ∃ st, NewHeaderFromStruct (some tBogus) = some st
      ∧ st.opt.accessControlAllowOrigin = tBogus.accessControlAllowOrigin :=
  (c7_construction_spec (some tBogus)).2 tBogus rfl (by decide) (by decide)
    (by decide)

/-- Claim C9 is violated by the code: ServeHTTP writes the captured
Origin into the shared instance field originHeader, so an interleaving
of two invocations on the same instance makes the second capture
overwrite the first, and origin resolution for the first request then
reflects the second request's origin. -/
theorem c9_origin_race :
    (ServeHTTP { opt := optOriginList, originHeader := "" } hEmpty reqFromA
        none).s.originHeader = "https://a.test"
    ∧ captureOrigin (captureOrigin
        { opt := optOriginList, originHeader := "" } reqFromA) reqFromB
        = { opt := optOriginList, originHeader := "https://b.test" }
    ∧ getAllowOrigin (captureOrigin (captureOrigin
        { opt := optOriginList, originHeader := "" } reqFromA) reqFromB)
        = Except.ok "https://b.test"
    ∧ hGet reqFromA.header "Origin" = "https://a.test"
    ∧ ("https://b.test" : String) ≠ "https://a.test" :=
  ⟨by decide, by decide, rfl, by decide, by decide⟩

end Headers
